import Mathlib

/-!
Shallow embedding of `src/bat_tracking_pipeline.py`.

The script defines a class `BatTrackingPipeline` and a driver function
`analyze_baseball_swing`.  The module imports `LoadTools`, `DataTools`,
`Florence2`, `cv2`, `numpy` and `datetime` — and nothing else; in particular
the names `YOLO` and `time`, both used inside `load_model_with_retry`, are
never imported, and the methods `setup_logging` (called from `__init__`) and
`interpolate_missing_trajectories` (called from `extract_clean_trajectories`)
are defined nowhere on the class.

Modelling choices:
  * Python floats are modelled as rationals (`ℚ`); the numpy call
    `np.degrees(np.arctan2 ...)` is an external function and is passed in as
    an oracle `arctan2_deg : ℚ → ℚ → ℚ`.
  * External library objects are modelled by the functions the script calls
    on them: `load_tools.load_model`, `data_tools.generate_photo_dataset`,
    `bat_model.predict`, `context_model.inference`.  `load_model` takes the
    attempt index as an extra argument so that successive calls may behave
    differently.  A frame is an opaque identifier (`Nat`).
  * Raised Python exceptions are values of `PyErr`; every constructor stands
    for a subclass of `Exception`, so `except Exception` catches all of them.
    The rendering `PyErr.str` models `str(e)` (quote marks around names are
    omitted).
  * Side effects are recorded in a trace of events `Ev`: lines printed to
    standard output, completed sleeps, and calls into the external models.
    `logging` output is not standard output and is not traced.
  * Methods that the script runs on an instance are functions of an explicit
    `self : Pipeline`; the state-threaded ones return the `self` they finish
    with, so that absence of attribute mutation is a provable statement.
-/

abbrev Frame := Nat

/-- A raised Python exception.  Every constructor models a subclass of
`Exception`: `nameError` for a lookup of a name that was never imported,
`attributeError` for a lookup of an attribute the object does not have,
`exception` for an explicitly raised generic `Exception`, and `libError`
for whatever an external library call raises. -/
inductive PyErr where
  | nameError (name : String)
  | attributeError (attr : String)
  | exception (msg : String)
  | libError (msg : String)
  deriving DecidableEq, Repr

/-- Models `str(e)` on a raised exception (quote marks omitted). -/
def PyErr.str : PyErr → String
  | .nameError n => "name " ++ n ++ " is not defined"
  | .attributeError a => "BatTrackingPipeline object has no attribute " ++ a
  | .exception m => m
  | .libError m => m

/-- Observable events of a run: a line printed to standard output, a completed
`time.sleep`, a call to `load_tools.load_model`, a call to
`bat_model.predict`, and a call to `context_model.inference`. -/
inductive Ev where
  | print (s : String)
  | sleep (seconds : Nat)
  | loadCall (model_name : String)
  | predictCall (frame : Frame)
  | inferCall (frame : Frame)
  deriving DecidableEq, Repr

/-- One detection box of a prediction result: `detection.conf[0]` and the
four numbers of `detection.xyxy[0].tolist()`. -/
structure BoxDet where
  conf0 : ℚ
  xyxy0 : ℚ × ℚ × ℚ × ℚ
  deriving DecidableEq, Repr

/-- What `process_frame_results` reads off a prediction result:
`bat_results.timestamp` and `bat_results.boxes`. -/
structure BatResults where
  timestamp : ℚ
  boxes : List BoxDet
  deriving DecidableEq, Repr

/-- One entry of the `bat_detections` list built by `process_frame_results`:
the dict with keys `position`, `confidence` and `angle`. -/
structure DetEntry where
  position : ℚ × ℚ × ℚ × ℚ
  confidence : ℚ
  angle : ℚ
  deriving DecidableEq, Repr

/-- The per-frame dict built by `process_frame_results`: keys `timestamp`,
`bat_detections` and `bat_angle` (the latter is set to `None` and never
updated). -/
structure FrameData where
  timestamp : ℚ
  bat_detections : List DetEntry
  bat_angle : Option ℚ
  deriving DecidableEq, Repr

/-- One non-`None` entry of the `trajectories` list built by
`extract_clean_trajectories`: the dict with keys `position` and `angle`. -/
structure TrajEntry where
  position : ℚ × ℚ × ℚ × ℚ
  angle : ℚ
  deriving DecidableEq, Repr

/-- The metrics dict built by `calculate_swing_metrics`. -/
structure SwingMetrics where
  max_bat_speed : ℚ
  swing_plane_angle : ℚ
  contact_point : Option (ℚ × ℚ)
  swing_duration : ℚ
  deriving DecidableEq, Repr

/-- The `analysis_results` dict built by `analyze_sequence`: exactly the keys
`sequence_length`, `bat_trajectory`, `swing_metrics`, `game_situation` and
`analysis_timestamp`. -/
structure AnalysisResults where
  sequence_length : Nat
  bat_trajectory : List (Option TrajEntry)
  swing_metrics : SwingMetrics
  game_situation : Option String
  analysis_timestamp : String
  deriving DecidableEq, Repr

/-- The attributes a `BatTrackingPipeline` instance would carry.  The four
tool attributes are modelled by the functions the script calls on them;
`hasLogger` records whether the instance has a `logger` attribute
(`setup_logging`, which would create one, is defined nowhere on the class, so
no instance produced by `__init__` ever has it). -/
structure Pipeline where
  load_tools : String → Nat → Except PyErr String
  data_tools : String → Nat → String → List Frame
  bat_model : Frame → ℚ → BatResults
  context_model : Frame → String → String
  hasLogger : Bool

/-- Result triple of a state-threaded method: the returned value or the
raised exception, the events of the call, and the `self` it finishes with. -/
abbrev PyRes (α : Type) := Except PyErr α × List Ev × Pipeline

/-- The method names defined on the class `BatTrackingPipeline` in
`src/bat_tracking_pipeline.py`. -/
def batTrackingPipelineMethods : List String :=
  ["__init__", "load_model_with_retry", "process_sequence",
   "process_frame_results", "calculate_bat_angle", "analyze_sequence",
   "extract_clean_trajectories", "calculate_swing_metrics"]

/-- Models the statement `time.sleep(1)` at line 36.  The module never imports
`time`, so evaluating the name raises `NameError` before any sleep happens:
no `Ev.sleep` event is ever emitted. -/
def time_sleep (_seconds : Nat) : Except PyErr Unit × List Ev :=
  (Except.error (PyErr.nameError "time"), [])

/-- The body of the `try` block of `load_model_with_retry` (lines 30 and 31):
`model_path = self.load_tools.load_model(model_name); return YOLO(model_path)`.
When the load itself raises, that exception propagates; when it succeeds, the
module-level lookup of the unimported name `YOLO` raises `NameError`.  Either
way the `try` body raises, and `except Exception as e` catches it. -/
def attempt_try_body (load_tools : String → Nat → Except PyErr String)
    (model_name : String) (attempt : Nat) : Except PyErr (Option Unit) :=
  match load_tools model_name attempt with
  | Except.error e => Except.error e
  | Except.ok _model_path => Except.error (PyErr.nameError "YOLO")

/-- The loop `for attempt in range(max_attempts)` of `load_model_with_retry`,
lines 28 to 36, as a recursion over the remaining iteration count (`attempt`
is the current index).  Falling off the end of the loop returns Python's
implicit `None` (`Except.ok none`); the only other value a completed call
could return is a constructed model (`Except.ok (some _)`). -/
def retry_loop (load_tools : String → Nat → Except PyErr String)
    (model_name : String) (max_attempts : Nat) :
    Nat → Nat → Except PyErr (Option Unit) × List Ev
  | _attempt, 0 => (Except.ok none, [])
  | attempt, remaining + 1 =>
    match attempt_try_body load_tools model_name attempt with
    | Except.ok m => (Except.ok m, [Ev.loadCall model_name])
    | Except.error _e =>
      if attempt = max_attempts - 1 then
        (Except.error (PyErr.exception
            ("Failed to load model after " ++ toString max_attempts ++ " attempts")),
         [Ev.loadCall model_name])
      else
        let printed := [Ev.loadCall model_name,
          Ev.print ("Attempt " ++ toString (attempt + 1) ++ " failed, retrying...")]
        match time_sleep 1 with
        | (Except.error e2, sleep_evs) => (Except.error e2, printed ++ sleep_evs)
        | (Except.ok _, sleep_evs) =>
          let rest := retry_loop load_tools model_name max_attempts (attempt + 1) remaining
          (rest.1, printed ++ sleep_evs ++ rest.2)

/-- `BatTrackingPipeline.load_model_with_retry` (lines 24 to 36).  `__init__`
calls it with the default `max_attempts=3`. -/
def load_model_with_retry (load_tools : String → Nat → Except PyErr String)
    (model_name : String) (max_attempts : Nat) :
    Except PyErr (Option Unit) × List Ev :=
  retry_loop load_tools model_name max_attempts 0 max_attempts

/-- `BatTrackingPipeline.calculate_bat_angle` (lines 101 to 107).  The numpy
computation `np.degrees(np.arctan2(y2 - y1, x2 - x1))` is delegated to the
oracle `arctan2_deg`. -/
def calculate_bat_angle (arctan2_deg : ℚ → ℚ → ℚ)
    (bat_box : ℚ × ℚ × ℚ × ℚ) : ℚ :=
  match bat_box with
  | (x1, y1, x2, y2) => arctan2_deg (y2 - y1) (x2 - x1)

/-- `BatTrackingPipeline.process_frame_results` (lines 79 to 99): builds the
per-frame dict, appending an entry for each detection whose `conf[0]`
exceeds `0.30`. -/
def process_frame_results (arctan2_deg : ℚ → ℚ → ℚ)
    (bat_results : BatResults) : FrameData :=
  { timestamp := bat_results.timestamp
    bat_detections :=
      bat_results.boxes.foldl (fun acc detection =>
        if (3 : ℚ)/10 < detection.conf0 then
          acc ++ [{ position := detection.xyxy0
                    confidence := detection.conf0
                    angle := calculate_bat_angle arctan2_deg detection.xyxy0 }]
        else acc) []
    bat_angle := none }

/-- Python's `max(xs, key=f)` on the non-empty list `x :: xs`: it scans left
to right and replaces the current best only on a strictly larger key, so on
ties the earliest maximal element wins. -/
def pyMaxBy {α : Type} (key : α → ℚ) (x : α) (xs : List α) : α :=
  xs.foldl (fun best a => if key best < key a then a else best) x

/-- The entry `extract_clean_trajectories` appends for one frame (lines 136
to 148): `None` for a frame whose `bat_detections` list is empty, otherwise
the `position` and `angle` of `max(frame_data['bat_detections'],
key=lambda x: x['confidence'])`. -/
def best_of (frame_data : FrameData) : Option TrajEntry :=
  match frame_data.bat_detections with
  | [] => none
  | d :: ds =>
    let best_detection := pyMaxBy DetEntry.confidence d ds
    some { position := best_detection.position, angle := best_detection.angle }

/-- The `trajectories` list the loop of `extract_clean_trajectories` builds
before the final (failing) interpolation call. -/
def build_trajectories (sequence_data : List FrameData) : List (Option TrajEntry) :=
  sequence_data.map best_of

/-- `BatTrackingPipeline.extract_clean_trajectories` (lines 130 to 151).  The
loop builds `trajectories`, and then line 151 looks up
`self.interpolate_missing_trajectories` — an attribute defined nowhere on the
class and on no instance — so the method always raises `AttributeError`
instead of returning. -/
def extract_clean_trajectories (self : Pipeline)
    (sequence_data : List FrameData) : PyRes (List (Option TrajEntry)) :=
  let _trajectories := build_trajectories sequence_data
  (Except.error (PyErr.attributeError "interpolate_missing_trajectories"), [], self)

/-- Python truthiness of the `bat_trajectory` argument: `None` and `[]` are
falsy, a non-empty list is truthy. -/
def pyTruthyList : Option (List (Option TrajEntry)) → Bool
  | none => false
  | some l => !l.isEmpty

/-- `BatTrackingPipeline.calculate_swing_metrics` (lines 153 to 170): builds
the placeholder dict; the `if bat_trajectory:` branch contains only `pass`. -/
def calculate_swing_metrics (self : Pipeline)
    (bat_trajectory : Option (List (Option TrajEntry))) : SwingMetrics × Pipeline :=
  let metrics : SwingMetrics :=
    { max_bat_speed := 0, swing_plane_angle := 0
      contact_point := none, swing_duration := 0 }
  if pyTruthyList bat_trajectory then (metrics, self) else (metrics, self)

/-- `BatTrackingPipeline.analyze_sequence` (lines 109 to 128).  `datetime.now`
is external; its rendering is passed in as `now_iso`. -/
def analyze_sequence (self : Pipeline) (now_iso : String)
    (sequence_data : List FrameData) (game_context : Option String) :
    PyRes AnalysisResults :=
  match extract_clean_trajectories self sequence_data with
  | (Except.error e, evs, selfA) => (Except.error e, evs, selfA)
  | (Except.ok bat_trajectory, evs, selfA) =>
    let traj_metrics := calculate_swing_metrics selfA (some bat_trajectory)
    (Except.ok
      { sequence_length := sequence_data.length
        bat_trajectory := bat_trajectory
        swing_metrics := traj_metrics.1
        game_situation := game_context
        analysis_timestamp := now_iso },
     evs, traj_metrics.2)

/-- The frame loop of `process_sequence` (lines 56 to 74), recursing over the
frames with the running index:  each iteration predicts on the frame, runs the
context inference only when `idx == 0`, and appends
`process_frame_results(bat_results)`; `game_context` starts as `None` and is
assigned only at index 0. -/
def seq_loop (self : Pipeline) (arctan2_deg : ℚ → ℚ → ℚ) :
    Nat → List Frame → List FrameData × Option String × List Ev
  | _idx, [] => ([], none, [])
  | idx, frame :: rest_frames =>
    let bat_results := self.bat_model frame ((3 : ℚ)/10)
    let this_context : Option String :=
      if idx = 0 then some (self.context_model frame "<BATTING_CONTEXT>") else none
    let this_evs : List Ev :=
      Ev.predictCall frame :: (if idx = 0 then [Ev.inferCall frame] else [])
    let frame_data := process_frame_results arctan2_deg bat_results
    let rest := seq_loop self arctan2_deg (idx + 1) rest_frames
    (frame_data :: rest.1,
     (match this_context with
      | some c => some c
      | none => rest.2.1),
     this_evs ++ rest.2.2)

/-- `BatTrackingPipeline.process_sequence` (lines 38 to 77).  Its first
statement is `self.logger.info(...)`; no instance ever has a `logger`
attribute (`setup_logging` is undefined), so on the instances the script
could build the method raises `AttributeError` at once.  On a `self` that
does have a logger it extracts the frames, runs the loop, and tail-calls
`analyze_sequence`. -/
def process_sequence (self : Pipeline) (arctan2_deg : ℚ → ℚ → ℚ)
    (now_iso : String) (video_path : String) : PyRes AnalysisResults :=
  if self.hasLogger then
    let frames := self.data_tools video_path 60 "swing_analysis_frames"
    let looped := seq_loop self arctan2_deg 0 frames
    let analyzed := analyze_sequence self now_iso looped.1 looped.2.1
    (analyzed.1, looped.2.2 ++ analyzed.2.1, analyzed.2.2)
  else
    (Except.error (PyErr.attributeError "logger"), [], self)

/-- `BatTrackingPipeline.__init__` (lines 12 to 22): assigns the tools, then
`self.bat_model = self.load_model_with_retry("bat_tracking")` with the
default `max_attempts=3`.  When that raises, the exception propagates out of
the constructor; were it ever to return, the next lines would assign
`context_model` and then call `self.setup_logging()`, a method defined
nowhere on the class, raising `AttributeError`.  Hence no `Pipeline` value is
ever produced. -/
def pipeline_init (load_tools : String → Nat → Except PyErr String) :
    Except PyErr Pipeline × List Ev :=
  match load_model_with_retry load_tools "bat_tracking" 3 with
  | (Except.error e, evs) => (Except.error e, evs)
  | (Except.ok _bat_model, evs) =>
    (Except.error (PyErr.attributeError "setup_logging"), evs)

/-- The `try ... except Exception as e` block of `analyze_baseball_swing`
(lines 179 to 185): a normal return of `process_sequence` is reported and
returned, and any raised exception is caught, printed as
`"Analysis failed: " + str(e)`, and turned into a `None` return. -/
def analyze_try (pipeline : Pipeline) (arctan2_deg : ℚ → ℚ → ℚ)
    (now_iso : String) (video_path : String) :
    Except PyErr (Option AnalysisResults) × List Ev :=
  match process_sequence pipeline arctan2_deg now_iso video_path with
  | (Except.ok results, evs, _selfA) =>
    (Except.ok (some results),
     evs ++ [Ev.print ("Successfully analyzed swing sequence of "
       ++ toString results.sequence_length ++ " frames")])
  | (Except.error e, evs, _selfA) =>
    (Except.ok none, evs ++ [Ev.print ("Analysis failed: " ++ e.str)])

/-- `analyze_baseball_swing` (lines 173 to 185).  The pipeline is constructed
at line 177, OUTSIDE the `try` block, so an exception raised by the
constructor propagates to the caller uncaught. -/
def analyze_baseball_swing (load_tools : String → Nat → Except PyErr String)
    (arctan2_deg : ℚ → ℚ → ℚ) (now_iso : String) (video_path : String) :
    Except PyErr (Option AnalysisResults) × List Ev :=
  match pipeline_init load_tools with
  | (Except.error e, evs) => (Except.error e, evs)
  | (Except.ok pipeline, evs) =>
    let tried := analyze_try pipeline arctan2_deg now_iso video_path
    (tried.1, evs ++ tried.2)

/-- Recognizes a context-inference event in a trace. -/
def isInferEv : Ev → Bool
  | Ev.inferCall _ => true
  | _ => false

/-- Recognizes a completed-sleep event in a trace. -/
def isSleepEv : Ev → Bool
  | Ev.sleep _ => true
  | _ => false

/-- Recognizes a `load_model` call event in a trace. -/
def isLoadEv : Ev → Bool
  | Ev.loadCall _ => true
  | _ => false

/-- The placeholder metrics dict of `calculate_swing_metrics`. -/
def placeholder_metrics : SwingMetrics :=
  { max_bat_speed := 0, swing_plane_angle := 0
    contact_point := none, swing_duration := 0 }

/-- A loader that always succeeds, returning a weights path. -/
def okLoader : String → Nat → Except PyErr String :=
  fun _ _ => Except.ok "bat_tracking.pt"

/-- A loader that always fails with a download error. -/
def failLoader : String → Nat → Except PyErr String :=
  fun _ _ => Except.error (PyErr.libError "download error")

/-- A concrete stand-in for the numpy angle computation. -/
def cArct : ℚ → ℚ → ℚ :=
  fun dy dx => dy - dx

/-- A concrete pipeline state without a `logger` attribute — the shape of any
instance `__init__` could have produced, had it ever completed. -/
def cPipeNoLogger : Pipeline :=
  { load_tools := okLoader
    data_tools := fun _ _ _ => [4, 7]
    bat_model := fun frame _conf => { timestamp := frame, boxes := [] }
    context_model := fun _ _ => "batting context"
    hasLogger := false }

/-- A concrete pipeline state that does carry a `logger` attribute, whose
video yields no frames. -/
def cPipeNoFrames : Pipeline :=
  { load_tools := okLoader
    data_tools := fun _ _ _ => []
    bat_model := fun frame _conf => { timestamp := frame, boxes := [] }
    context_model := fun _ _ => "batting context"
    hasLogger := true }

/-- A concrete pipeline state with a `logger` attribute and two frames whose
predictions carry detections. -/
def cPipeTwoFrames : Pipeline :=
  { load_tools := okLoader
    data_tools := fun _ _ _ => [4, 7]
    bat_model := fun frame _conf =>
      { timestamp := frame
        boxes := [{ conf0 := 1/2, xyxy0 := (0, 0, 1, 1) },
                  { conf0 := 3/4, xyxy0 := (2, 2, 3, 3) }] }
    context_model := fun _ _ => "batting context"
    hasLogger := true }

/-- A concrete frame dict with two detections of distinct confidences. -/
def cFrameTwoDet : FrameData :=
  { timestamp := 0
    bat_detections := [{ position := (0, 0, 1, 1), confidence := 1/2, angle := 10 },
                       { position := (2, 2, 3, 3), confidence := 3/4, angle := 20 }]
    bat_angle := none }

/-- A concrete frame dict with no detections. -/
def cFrameNoDet : FrameData :=
  { timestamp := 1, bat_detections := [], bat_angle := none }

/-! Helper lemmas shared by the claim theorems. -/

/-- `analyze_sequence` always propagates the `AttributeError` that
`extract_clean_trajectories` raises. -/
theorem analyze_sequence_eq (self : Pipeline) (now_iso : String)
    (sequence_data : List FrameData) (game_context : Option String) :
    analyze_sequence self now_iso sequence_data game_context =
      (Except.error (PyErr.attributeError "interpolate_missing_trajectories"),
       [], self) := rfl

/-- `process_sequence` in closed form: on a `self` without a logger it raises
at once; otherwise the loop runs and the tail call into `analyze_sequence`
raises the interpolation `AttributeError`. -/
theorem process_sequence_eq (self : Pipeline) (arctan2_deg : ℚ → ℚ → ℚ)
    (now_iso video_path : String) :
    process_sequence self arctan2_deg now_iso video_path =
      if self.hasLogger then
        (Except.error (PyErr.attributeError "interpolate_missing_trajectories"),
         (seq_loop self arctan2_deg 0
           (self.data_tools video_path 60 "swing_analysis_frames")).2.2,
         self)
      else (Except.error (PyErr.attributeError "logger"), [], self) := by
  unfold process_sequence
  split
  · simp [analyze_sequence_eq]
  · rfl

/-- Python's `max` returns an element of its input. -/
theorem pyMaxBy_mem {α : Type} (key : α → ℚ) (x : α) (xs : List α) :
    pyMaxBy key x xs ∈ x :: xs := by
  induction xs generalizing x with
  | nil => simp [pyMaxBy]
  | cons a as ih =>
    have hstep : pyMaxBy key x (a :: as) =
        pyMaxBy key (if key x < key a then a else x) as := rfl
    rw [hstep]
    rcases List.mem_cons.mp (ih (if key x < key a then a else x)) with h1 | h2
    · rw [h1]
      split
      · exact List.mem_cons_of_mem _ (List.mem_cons_self a as)
      · exact List.mem_cons_self x _
    · exact List.mem_cons_of_mem _ (List.mem_cons_of_mem _ h2)

/-- Python's `max` returns an element whose key is maximal. -/
theorem pyMaxBy_le {α : Type} (key : α → ℚ) (x : α) (xs : List α) :
    ∀ y ∈ x :: xs, key y ≤ key (pyMaxBy key x xs) := by
  induction xs generalizing x with
  | nil =>
    intro y hy
    rcases List.mem_cons.mp hy with rfl | h
    · exact le_refl _
    · simp at h
  | cons a as ih =>
    intro y hy
    have hstep : pyMaxBy key x (a :: as) =
        pyMaxBy key (if key x < key a then a else x) as := rfl
    rw [hstep]
    have hx : key x ≤ key (if key x < key a then a else x) := by
      split
      · exact le_of_lt (by assumption)
      · exact le_refl _
    have ha : key a ≤ key (if key x < key a then a else x) := by
      split
      · exact le_refl _
      · exact le_of_not_lt (by assumption)
    have hhead := ih (if key x < key a then a else x) _ (List.mem_cons_self _ _)
    rcases List.mem_cons.mp hy with rfl | h
    · exact hx.trans hhead
    · rcases List.mem_cons.mp h with rfl | h2
      · exact ha.trans hhead
      · exact ih _ y (List.mem_cons_of_mem _ h2)

/-- The `sequence_data` list the frame loop builds, in closed form: one
`process_frame_results` entry per frame, in frame order, at every starting
index. -/
theorem seq_loop_data (self : Pipeline) (arctan2_deg : ℚ → ℚ → ℚ)
    (frames : List Frame) :
    ∀ idx, (seq_loop self arctan2_deg idx frames).1 =
      frames.map (fun frame =>
        process_frame_results arctan2_deg (self.bat_model frame ((3 : ℚ)/10))) := by
  induction frames with
  | nil => intro idx; rfl
  | cons f fs ih =>
    intro idx
    simp [seq_loop, ih]

/-- A frame loop started past index 0 never runs the context inference. -/
theorem seq_loop_no_infer (self : Pipeline) (arctan2_deg : ℚ → ℚ → ℚ)
    (frames : List Frame) :
    ∀ idx, idx ≠ 0 →
      (seq_loop self arctan2_deg idx frames).2.2.filter isInferEv = [] := by
  induction frames with
  | nil => intro idx _; rfl
  | cons f fs ih =>
    intro idx hidx
    have h1 : (seq_loop self arctan2_deg idx (f :: fs)).2.2 =
        Ev.predictCall f :: (seq_loop self arctan2_deg (idx + 1) fs).2.2 := by
      simp [seq_loop, hidx]
    rw [h1, List.filter_cons_of_neg (by simp [isInferEv])]
    exact ih (idx + 1) (Nat.succ_ne_zero idx)

/-- The context-inference events of the frame loop started at index 0: none
for an empty frame list, exactly one — on the first frame — otherwise. -/
theorem seq_loop_infer_zero (self : Pipeline) (arctan2_deg : ℚ → ℚ → ℚ)
    (frames : List Frame) :
    (seq_loop self arctan2_deg 0 frames).2.2.filter isInferEv =
      (match frames with
       | [] => []
       | f :: _ => [Ev.inferCall f]) := by
  cases frames with
  | nil => rfl
  | cons f fs =>
    have h1 : (seq_loop self arctan2_deg 0 (f :: fs)).2.2 =
        Ev.predictCall f :: Ev.inferCall f ::
          (seq_loop self arctan2_deg 1 fs).2.2 := by
      simp [seq_loop]
    rw [h1, List.filter_cons_of_neg (by simp [isInferEv]),
      List.filter_cons_of_pos (by simp [isInferEv]),
      seq_loop_no_infer self arctan2_deg fs 1 one_ne_zero]

/-- With at least two attempts, `load_model_with_retry` always dies on the
first attempt: whether the load succeeded (so that `YOLO` raised and was
caught) or failed, the handler prints the retry message and then the lookup
of the unimported name `time` raises. -/
theorem load_retry_first_attempt (load_tools : String → Nat → Except PyErr String)
    (model_name : String) (max_attempts : Nat) (hmax : 2 ≤ max_attempts) :
    load_model_with_retry load_tools model_name max_attempts =
      (Except.error (PyErr.nameError "time"),
       [Ev.loadCall model_name, Ev.print "Attempt 1 failed, retrying..."]) := by
  obtain ⟨m, rfl⟩ : ∃ m, max_attempts = m + 2 := ⟨max_attempts - 2, by omega⟩
  have h0 : ¬ ((0 : Nat) = (m + 2) - 1) := by omega
  unfold load_model_with_retry
  cases hl : load_tools model_name 0 with
  | error e =>
    simp only [retry_loop, attempt_try_body, hl, h0, time_sleep, if_false,
      ite_false, List.append_nil]
    rfl
  | ok p =>
    simp only [retry_loop, attempt_try_body, hl, h0, time_sleep, if_false,
      ite_false, List.append_nil]
    rfl

/-- A completed `load_model_with_retry` call is an exception or Python's
implicit `None`; it is never a constructed model. -/
theorem load_retry_shape (load_tools : String → Nat → Except PyErr String)
    (model_name : String) (max_attempts : Nat) :
    (∃ e, (load_model_with_retry load_tools model_name max_attempts).1 =
        Except.error e) ∨
    (load_model_with_retry load_tools model_name max_attempts).1 =
      Except.ok none := by
  match max_attempts with
  | 0 => exact Or.inr rfl
  | 1 =>
    left
    refine ⟨PyErr.exception "Failed to load model after 1 attempts", ?_⟩
    unfold load_model_with_retry
    cases hl : load_tools model_name 0 with
    | error e =>
      simp [retry_loop, attempt_try_body, hl]
      rfl
    | ok p =>
      simp [retry_loop, attempt_try_body, hl]
      rfl
  | (m + 2) =>
    left
    exact ⟨PyErr.nameError "time",
      by rw [load_retry_first_attempt load_tools model_name (m + 2) (by omega)]⟩

/-- With `max_attempts = 1` the one attempt is the final attempt: whatever
the loader does, the `try` body raises, the handler sees
`attempt == max_attempts - 1`, and the generic `Exception` is raised. -/
theorem load_retry_single_attempt (load_tools : String → Nat → Except PyErr String)
    (model_name : String) :
    load_model_with_retry load_tools model_name 1 =
      (Except.error (PyErr.exception "Failed to load model after 1 attempts"),
       [Ev.loadCall model_name]) := by
  unfold load_model_with_retry
  cases hl : load_tools model_name 0 with
  | error e =>
    simp [retry_loop, attempt_try_body, hl]
    rfl
  | ok p =>
    simp [retry_loop, attempt_try_body, hl]
    rfl

/-! The claim theorems. -/

/-- C1: the claim says `load_model_with_retry` attempts the load up to
`max_attempts` (default 3) times, sleeping one second after each failed
attempt except the last, and raises the generic
`Exception "Failed to load model after 3 attempts"` when every attempt
fails.  The code cannot do that: with the default `max_attempts = 3` and a
loader that fails, the handler of the first failure prints the retry message
and then dies looking up the unimported name `time` — exactly one load call,
no completed sleep, no second attempt, and the generic `Exception` is never
raised. -/
theorem C1_first_failure_raises_nameError_time :
    load_model_with_retry failLoader "bat_tracking" 3 =
      (Except.error (PyErr.nameError "time"),
       [Ev.loadCall "bat_tracking", Ev.print "Attempt 1 failed, retrying..."]) ∧
    (load_model_with_retry failLoader "bat_tracking" 3).2.filter isSleepEv = [] ∧
    ((load_model_with_retry failLoader "bat_tracking" 3).2.filter isLoadEv).length = 1 := by
  refine ⟨?_, ?_, ?_⟩ <;> rfl

/-- C2: for every frame of the sequence data, the trajectory entry the loop
of `extract_clean_trajectories` builds is `None` when the frame's
`bat_detections` list is empty, and otherwise takes its `position` and
`angle` from a detection of that frame whose `confidence` is highest. -/
theorem C2_highest_confidence_detection (sequence_data : List FrameData) :
    (build_trajectories sequence_data).length = sequence_data.length ∧
    ∀ i (h : i < sequence_data.length),
      (sequence_data[i].bat_detections = [] →
        (build_trajectories sequence_data)[i]? = some none) ∧
      (sequence_data[i].bat_detections ≠ [] →
        ∃ d ∈ sequence_data[i].bat_detections,
          (∀ d2 ∈ sequence_data[i].bat_detections, d2.confidence ≤ d.confidence) ∧
          (build_trajectories sequence_data)[i]? =
            some (some { position := d.position, angle := d.angle })) := by
  refine ⟨by simp [build_trajectories], fun i h => ⟨?_, ?_⟩⟩
  · intro hempty
    simp [build_trajectories, List.getElem?_eq_getElem h, best_of, hempty]
  · intro hne
    rcases hdets : sequence_data[i].bat_detections with _ | ⟨d, ds⟩
    · exact absurd hdets hne
    · refine ⟨pyMaxBy DetEntry.confidence d ds, ?_, ?_, ?_⟩
      · exact pyMaxBy_mem _ d ds
      · intro d2 hd2
        exact pyMaxBy_le _ d ds d2 hd2
      · simp [build_trajectories, List.getElem?_eq_getElem h, best_of, hdets]

/-- C2 witness: on a frame with detections of confidences 1/2 and 3/4
followed by a detection-free frame, the first trajectory entry is built from
the confidence-3/4 detection. -/
theorem C2_highest_confidence_detection_witness :
    ∃ d ∈ cFrameTwoDet.bat_detections,
      (∀ d2 ∈ cFrameTwoDet.bat_detections, d2.confidence ≤ d.confidence) ∧
      (build_trajectories [cFrameTwoDet, cFrameNoDet])[0]? =
        some (some { position := d.position, angle := d.angle }) := by
  have h := ((C2_highest_confidence_detection [cFrameTwoDet, cFrameNoDet]).2 0
    (by simp)).2 (by simp [cFrameTwoDet])
  simpa using h

/-- C3 counterexample: the claim ends "analyze_baseball_swing returns None
for every video path", but at this concrete environment (a loader that
succeeds) the call raises `NameError` on `time` out of the constructor —
which sits outside the `try` block — and returns nothing at all. -/
theorem C3_analyze_swing_raises_instead_of_none :
    analyze_baseball_swing okLoader cArct "2026-01-01T00:00:00" "swing_sequence.mp4" =
      (Except.error (PyErr.nameError "time"),
       [Ev.loadCall "bat_tracking", Ev.print "Attempt 1 failed, retrying..."]) := by
  rfl

/-- C3 (amended): `interpolate_missing_trajectories` is defined nowhere on
`BatTrackingPipeline`, so `extract_clean_trajectories` raises
`AttributeError` for every input instead of returning, and `process_sequence`
never returns a result; however `analyze_baseball_swing` does not return
`None`: the pipeline is constructed outside the `try` block and its
constructor always raises (`NameError` on the unimported `time`), so every
call raises instead of returning. -/
theorem C3_interpolation_undefined_consequences :
    batTrackingPipelineMethods.contains "interpolate_missing_trajectories" = false ∧
    (∀ self sequence_data, (extract_clean_trajectories self sequence_data).1 =
      Except.error (PyErr.attributeError "interpolate_missing_trajectories")) ∧
    (∀ self arctan2_deg now_iso video_path, ∃ e : PyErr,
      (process_sequence self arctan2_deg now_iso video_path).1 = Except.error e) ∧
    (∀ load_tools arctan2_deg now_iso video_path,
      (analyze_baseball_swing load_tools arctan2_deg now_iso video_path).1 =
        Except.error (PyErr.nameError "time")) := by
  refine ⟨by decide, fun self sd => rfl, ?_, ?_⟩
  · intro self arctan2_deg now_iso video_path
    rw [process_sequence_eq]
    split
    · exact ⟨_, rfl⟩
    · exact ⟨_, rfl⟩
  · intro load_tools arctan2_deg now_iso video_path
    have h2 := load_retry_first_attempt load_tools "bat_tracking" 3 (by omega)
    unfold analyze_baseball_swing pipeline_init
    rw [h2]

/-- C4: every exception `process_sequence` raises is caught by the
`try ... except Exception` block of `analyze_baseball_swing`, which appends
the line `"Analysis failed: " + str(e)` to standard output and returns `None`
instead of re-raising. -/
theorem C4_process_sequence_errors_caught (pipeline : Pipeline)
    (arctan2_deg : ℚ → ℚ → ℚ) (now_iso video_path : String) (e : PyErr)
    (h : (process_sequence pipeline arctan2_deg now_iso video_path).1 =
      Except.error e) :
    (analyze_try pipeline arctan2_deg now_iso video_path).1 = Except.ok none ∧
    (analyze_try pipeline arctan2_deg now_iso video_path).2 =
      (process_sequence pipeline arctan2_deg now_iso video_path).2.1 ++
        [Ev.print ("Analysis failed: " ++ e.str)] := by
  unfold analyze_try
  rcases hps : process_sequence pipeline arctan2_deg now_iso video_path with ⟨r, evs, selfA⟩
  rw [hps] at h
  simp only at h
  subst h
  simp

/-- C4 witness: on a concrete pipeline state without a logger,
`process_sequence` raises `AttributeError` on `logger` and the `try` block
turns it into a `None` return with the failure line printed. -/
theorem C4_process_sequence_errors_caught_witness :
    (analyze_try cPipeNoLogger cArct "t" "v").1 = Except.ok none ∧
    (analyze_try cPipeNoLogger cArct "t" "v").2 =
      (process_sequence cPipeNoLogger cArct "t" "v").2.1 ++
        [Ev.print ("Analysis failed: " ++ (PyErr.attributeError "logger").str)] :=
  C4_process_sequence_errors_caught cPipeNoLogger cArct "t" "v"
    (PyErr.attributeError "logger") rfl

/-- C5: the claim says `analyze_sequence` returns the five-key results dict
with `sequence_length` the frame count and `game_situation` the context
passed in.  The dict literal in the code has exactly those keys and values
(mirrored by `AnalysisResults`), but the method can never return it: its
first step, `extract_clean_trajectories`, always raises `AttributeError` on
the undefined `interpolate_missing_trajectories`, so `analyze_sequence`
raises on every input. -/
theorem C5_analyze_sequence_always_raises (self : Pipeline) (now_iso : String)
    (sequence_data : List FrameData) (game_context : Option String) :
    (analyze_sequence self now_iso sequence_data game_context).1 =
      Except.error (PyErr.attributeError "interpolate_missing_trajectories") := rfl

/-- C6: `calculate_swing_metrics` returns the placeholder dict
`{max_bat_speed := 0, swing_plane_angle := 0, contact_point := None,
swing_duration := 0}` on every input — `None`, the empty list, and every
non-empty trajectory alike — and leaves `self` untouched: the
trajectory-dependent branch contains only `pass`. -/
theorem C6_swing_metrics_placeholder (self : Pipeline)
    (bat_trajectory : Option (List (Option TrajEntry))) :
    calculate_swing_metrics self bat_trajectory = (placeholder_metrics, self) := by
  unfold calculate_swing_metrics placeholder_metrics
  split <;> rfl

/-- C7: the frame loop of `process_sequence` handles frames one at a time in
extraction order: the built `sequence_data` is exactly the frame list mapped
through `process_frame_results` of the bat model's prediction, so its `i`-th
entry comes from the `i`-th extracted frame. -/
theorem C7_frames_processed_in_order (self : Pipeline)
    (arctan2_deg : ℚ → ℚ → ℚ) (frames : List Frame) :
    (seq_loop self arctan2_deg 0 frames).1 =
      frames.map (fun frame =>
        process_frame_results arctan2_deg (self.bat_model frame ((3 : ℚ)/10))) ∧
    ∀ i (h : i < frames.length),
      (seq_loop self arctan2_deg 0 frames).1[i]? =
        some (process_frame_results arctan2_deg
          (self.bat_model frames[i] ((3 : ℚ)/10))) := by
  refine ⟨seq_loop_data self arctan2_deg frames 0, fun i h => ?_⟩
  rw [seq_loop_data self arctan2_deg frames 0, List.getElem?_map,
    List.getElem?_eq_getElem h]
  rfl

/-- C7 witness: with two concrete frames, entry 1 of the built sequence data
is the processed prediction of frame 7, the second extracted frame. -/
theorem C7_frames_processed_in_order_witness :
    (seq_loop cPipeTwoFrames cArct 0 [4, 7]).1[1]? =
      some (process_frame_results cArct (cPipeTwoFrames.bat_model 7 ((3 : ℚ)/10))) := by
  have h := (C7_frames_processed_in_order cPipeTwoFrames cArct [4, 7]).2 1 (by decide)
  simpa using h

/-- C8: no method of the pipeline reassigns or replaces an attribute set in
`__init__`: `process_sequence`, `analyze_sequence`,
`extract_clean_trajectories` and `calculate_swing_metrics` all finish with
the `self` they were given, so the pipeline state after a call equals the
state before it. -/
theorem C8_no_attribute_mutation (self : Pipeline) (arctan2_deg : ℚ → ℚ → ℚ)
    (now_iso video_path : String) (sequence_data : List FrameData)
    (game_context : Option String)
    (bat_trajectory : Option (List (Option TrajEntry))) :
    (process_sequence self arctan2_deg now_iso video_path).2.2 = self ∧
    (analyze_sequence self now_iso sequence_data game_context).2.2 = self ∧
    (extract_clean_trajectories self sequence_data).2.2 = self ∧
    (calculate_swing_metrics self bat_trajectory).2 = self := by
  refine ⟨?_, rfl, rfl, ?_⟩
  · rw [process_sequence_eq]
    split <;> rfl
  · unfold calculate_swing_metrics
    split <;> rfl

/-- C9 counterexample: the claim says that when `load_tools.load_model`
succeeds, `load_model_with_retry` raises `NameError` on `YOLO`.  With a
loader that always succeeds, the exception the call actually raises is
`NameError` on `time`: the `YOLO` `NameError` is swallowed by
`except Exception` and the handler then dies on `time.sleep`. -/
theorem C9_successful_load_still_raises_time :
    load_model_with_retry okLoader "bat_tracking" 3 =
      (Except.error (PyErr.nameError "time"),
       [Ev.loadCall "bat_tracking", Ev.print "Attempt 1 failed, retrying..."]) := by
  rfl

/-- C9 (amended): `load_model_with_retry` can never return a model — every
completed call is an exception or Python's implicit `None`.  When
`load_tools.load_model` succeeds, the `try` body raises `NameError` on the
unimported `YOLO`, but that exception is caught by `except Exception`; on a
non-final attempt the handler then raises `NameError` on the unimported
`time` before it can sleep and retry (no sleep event ever occurs). -/
theorem C9_never_returns_model :
    (∀ load_tools model_name max_attempts,
      (∃ e, (load_model_with_retry load_tools model_name max_attempts).1 =
        Except.error e) ∨
      (load_model_with_retry load_tools model_name max_attempts).1 =
        Except.ok none) ∧
    (∀ load_tools model_name attempt path,
      load_tools model_name attempt = Except.ok path →
      attempt_try_body load_tools model_name attempt =
        Except.error (PyErr.nameError "YOLO")) ∧
    (∀ load_tools model_name max_attempts, 2 ≤ max_attempts →
      load_model_with_retry load_tools model_name max_attempts =
        (Except.error (PyErr.nameError "time"),
         [Ev.loadCall model_name, Ev.print "Attempt 1 failed, retrying..."]) ∧
      (load_model_with_retry load_tools model_name max_attempts).2.filter
        isSleepEv = []) ∧
    (∀ load_tools model_name,
      load_model_with_retry load_tools model_name 1 =
        (Except.error (PyErr.exception "Failed to load model after 1 attempts"),
         [Ev.loadCall model_name])) := by
  refine ⟨load_retry_shape, ?_, ?_, load_retry_single_attempt⟩
  · intro load_tools model_name attempt path hok
    unfold attempt_try_body
    rw [hok]
  · intro load_tools model_name max_attempts hmax
    have h := load_retry_first_attempt load_tools model_name max_attempts hmax
    rw [h]
    exact ⟨rfl, rfl⟩

/-- C9 witness: at a succeeding loader the `try` body raises the `YOLO`
`NameError`; with two attempts the call raises the `time` `NameError` with
no sleep at a failing and at a succeeding loader alike; and with a single
(hence final) attempt it raises the generic `Exception`. -/
theorem C9_never_returns_model_witness :
    attempt_try_body okLoader "bat_tracking" 0 =
      Except.error (PyErr.nameError "YOLO") ∧
    load_model_with_retry failLoader "bat_tracking" 2 =
      (Except.error (PyErr.nameError "time"),
       [Ev.loadCall "bat_tracking", Ev.print "Attempt 1 failed, retrying..."]) ∧
    load_model_with_retry okLoader "bat_tracking" 2 =
      (Except.error (PyErr.nameError "time"),
       [Ev.loadCall "bat_tracking", Ev.print "Attempt 1 failed, retrying..."]) ∧
    load_model_with_retry failLoader "bat_tracking" 1 =
      (Except.error (PyErr.exception "Failed to load model after 1 attempts"),
       [Ev.loadCall "bat_tracking"]) :=
  ⟨C9_never_returns_model.2.1 okLoader "bat_tracking" 0 "bat_tracking.pt" rfl,
   (C9_never_returns_model.2.2.1 failLoader "bat_tracking" 2 (by omega)).1,
   (C9_never_returns_model.2.2.1 okLoader "bat_tracking" 2 (by omega)).1,
   C9_never_returns_model.2.2.2 failLoader "bat_tracking"⟩

/-- C10 counterexample: the claim says that on a video yielding zero frames
the returned result's `game_situation` is `None`; on this concrete pipeline
state (logger present, zero frames) `process_sequence` returns no result at
all — it raises `AttributeError` on the undefined
`interpolate_missing_trajectories`. -/
theorem C10_zero_frames_no_result :
    process_sequence cPipeNoFrames cArct "t" "swing_sequence.mp4" =
      (Except.error (PyErr.attributeError "interpolate_missing_trajectories"),
       [], cPipeNoFrames) := by
  rfl

/-- C10 (amended): in every call to `process_sequence` the context model is
invoked at most once and only on the first extracted frame; with zero frames
the frame loop's game context is `None`, but `process_sequence` raises
`AttributeError` before any result carrying it could be returned. -/
theorem C10_context_inference_at_most_once (self : Pipeline)
    (arctan2_deg : ℚ → ℚ → ℚ) (now_iso video_path : String) :
    ((process_sequence self arctan2_deg now_iso video_path).2.1.filter
      isInferEv).length ≤ 1 ∧
    (∀ frame, Ev.inferCall frame ∈
        (process_sequence self arctan2_deg now_iso video_path).2.1 →
      ∃ rest, self.data_tools video_path 60 "swing_analysis_frames" =
        frame :: rest) ∧
    (seq_loop self arctan2_deg 0 []).2.1 = none ∧
    (self.hasLogger = true →
      self.data_tools video_path 60 "swing_analysis_frames" = [] →
      process_sequence self arctan2_deg now_iso video_path =
        (Except.error (PyErr.attributeError "interpolate_missing_trajectories"),
         [], self)) := by
  refine ⟨?_, ?_, rfl, ?_⟩
  · rw [process_sequence_eq]
    split
    · rw [seq_loop_infer_zero]
      rcases self.data_tools video_path 60 "swing_analysis_frames" with _ | ⟨f, fs⟩
      · simp
      · simp
    · simp
  · intro frame hmem
    rw [process_sequence_eq] at hmem
    split at hmem
    · have hmem2 : Ev.inferCall frame ∈
          (seq_loop self arctan2_deg 0
            (self.data_tools video_path 60 "swing_analysis_frames")).2.2.filter
            isInferEv :=
        List.mem_filter.mpr ⟨hmem, rfl⟩
      rw [seq_loop_infer_zero] at hmem2
      rcases hfr : self.data_tools video_path 60 "swing_analysis_frames" with _ | ⟨f, fs⟩
      · rw [hfr] at hmem2
        simp at hmem2
      · rw [hfr] at hmem2
        simp at hmem2
        exact ⟨fs, by rw [hmem2]⟩
    · simp at hmem
  · intro hlog hframes
    rw [process_sequence_eq, if_pos hlog, hframes]
    rfl

/-- C10 witness: on the concrete zero-frame pipeline state the loop's game
context is `None` and `process_sequence` raises the interpolation
`AttributeError`. -/
theorem C10_context_inference_at_most_once_witness :
    (seq_loop cPipeNoFrames cArct 0 []).2.1 = none ∧
    process_sequence cPipeNoFrames cArct "t" "v" =
      (Except.error (PyErr.attributeError "interpolate_missing_trajectories"),
       [], cPipeNoFrames) :=
  ⟨(C10_context_inference_at_most_once cPipeNoFrames cArct "t" "v").2.2.1,
   (C10_context_inference_at_most_once cPipeNoFrames cArct "t" "v").2.2.2 rfl rfl⟩
